import Mathlib

/-!
Verification of the Email-to-Upload Ingestion & Tracking Pipeline of
kb_upload_genie (backend/app). Shallow embedding of the Python services:
pure data is translated directly; Redis, the filesystem and SMTP are
modelled as explicit state / oracle functions; exceptions become Option
results or explicit error branches, following each `try/except` in the
source. File bytes are `List Nat`; machine sizes never overflow in the
source paths modelled (counts and lengths), so `Nat` is used throughout.
-/

namespace KB

/-- Configuration fields of `app/core/config.py::Settings` consumed by the
pipeline, with the source defaults. -/
structure Settings where
  markAsRead : Bool
  hourlyLimit : Nat
  dailyLimit : Nat
  maxAttachmentSize : Nat
  maxAttachmentCount : Nat
  allowedExtensions : List String
  systemSenders : List String
  whitelistEnabled : Bool
  allowedDomains : List String
deriving Repr, DecidableEq

/-- The defaults declared in `Settings` (config.py lines 96-133). -/
def defaultSettings : Settings :=
  { markAsRead := true
    hourlyLimit := 5
    dailyLimit := 20
    maxAttachmentSize := 10 * 1024 * 1024
    maxAttachmentCount := 5
    allowedExtensions := [".pdf", ".doc", ".docx", ".txt", ".md", ".zip", ".rar"]
    systemSenders := ["mailer-daemon@", "noreply@", "no-reply@", "donotreply@",
      "do-not-reply@", "postmaster@", "bounce@", "bounces@", "system@",
      "admin@", "administrator@"]
    whitelistEnabled := false
    allowedDomains := ["gmail.com", "outlook.com", "qq.com", "163.com"] }

/-! ## String primitives

Python string operations used by the services, modelled on character
lists (the strings involved are ASCII). -/

/-- Boolean substring test: Python `pat in s`. -/
def substrAux (pat : List Char) : List Char → Bool
  | [] => pat.isEmpty
  | c :: rest => pat.isPrefixOf (c :: rest) || substrAux pat rest

def strContainsSub (s pat : String) : Bool :=
  substrAux pat.toList s.toList

/-- `os.path.splitext(...)[1]` for a bare filename: the suffix from the
last dot, provided some earlier character of the name is not a dot
(leading dots never start an extension). -/
def splitextExt (s : String) : String :=
  let cs := s.toList
  match cs.reverse.findIdx? (fun c => c = '.') with
  | none => ""
  | some i =>
    let d := cs.length - 1 - i
    if (cs.take d).any (fun c => ¬ c = '.') then String.mk (cs.drop d) else ""

/-- Python `s[-n:]` for a string of length ≥ n. -/
def takeLast (s : String) (n : Nat) : String :=
  String.mk (s.toList.drop (s.length - n))

/-- Python `str.upper()` (character-wise). -/
def pyUpper (s : String) : String :=
  String.mk (s.toList.map Char.toUpper)

/-- Python `str.lower()` (character-wise). -/
def pyLower (s : String) : String :=
  String.mk (s.toList.map Char.toLower)

/-- Python `str.strip()`: drop leading and trailing whitespace. -/
def pyStrip (s : String) : String :=
  String.mk
    (((s.toList.dropWhile Char.isWhitespace).reverse.dropWhile
        Char.isWhitespace).reverse)

/-- Python `int(s)` for a non-negative decimal string: the parsed value,
or None when `int` raises (the counters handled here are written by
Redis INCR and are plain digit strings; sign, whitespace and underscore
forms never arise). -/
def pyInt? (s : String) : Option Nat :=
  let cs := s.toList
  if cs ≠ [] ∧ cs.all Char.isDigit then
    some (cs.foldl (fun n c => n * 10 + (c.toNat - 48)) 0)
  else none

/-- Python `s.split(sep)[-1]` for a one-character separator: the suffix
after the last occurrence (the whole string when absent). -/
def afterLast (sep : Char) (s : String) : String :=
  String.mk ((s.toList.reverse.takeWhile (fun c => ¬ c = sep)).reverse)

/-! ## Redis model (`app/services/redis_service.py`)

Redis values are strings; a key may carry a TTL (armed by EXPIRE).
`connected` models `RedisService.is_connected` (client present and PING
succeeding): every RedisService method first checks it and degrades when
it is false. -/

/-- One Redis value: the stored string and its remaining TTL (none = no
expiry armed). -/
structure RedisVal where
  value : String
  ttl : Option Nat
deriving Repr, DecidableEq

/-- Redis as seen by the service: connectivity plus the key/value store. -/
structure Redis where
  connected : Bool
  store : List (String × RedisVal)
deriving Repr, DecidableEq

def Redis.lookup (r : Redis) (k : String) : Option RedisVal :=
  (r.store.find? (fun p => p.1 = k)).map (fun p => p.2)

def Redis.setVal (r : Redis) (k : String) (v : RedisVal) : Redis :=
  { r with store := (k, v) :: r.store.filter (fun p => ¬ p.1 = k) }

namespace RedisService

/-- `RedisService.get`: returns the stored string, or None when Redis is
unavailable, the key is absent, or an error occurs. -/
def get (r : Redis) (k : String) : Option String :=
  if ¬ r.connected then none
  else (r.lookup k).map (fun v => v.value)

/-- `RedisService.incr`: Redis INCR. Creates the key at 1 (no TTL) when
absent; on a non-integer value the command errors and the except branch
returns 0 leaving the state unchanged. Returns (new state, result). -/
def incr (r : Redis) (k : String) : Redis × Nat :=
  if ¬ r.connected then (r, 0)
  else
    match r.lookup k with
    | none => (r.setVal k { value := "1", ttl := none }, 1)
    | some v =>
      match pyInt? v.value with
      | none => (r, 0)
      | some n => (r.setVal k { value := toString (n + 1), ttl := v.ttl }, n + 1)

/-- `RedisService.expire`: arms the TTL of an existing key; no-op when the
key is absent or Redis is unavailable. -/
def expire (r : Redis) (k : String) (seconds : Nat) : Redis :=
  if ¬ r.connected then r
  else
    match r.lookup k with
    | none => r
    | some v => r.setVal k { value := v.value, ttl := some seconds }

/-- `RedisService.get_rate_limit`: `int(value) if value else None`, with
every exception (including a non-integer value) caught and mapped to
None. -/
def get_rate_limit (r : Redis) (k : String) : Option Nat :=
  if ¬ r.connected then none
  else
    match r.lookup k with
    | none => none
    | some v => if v.value = "" then none else pyInt? v.value

/-- `RedisService.increment_rate_limit`: INCR then EXPIRE in one pipeline,
returning the incremented count; 0 (state unchanged) on failure. -/
def increment_rate_limit (r : Redis) (k : String) (expireSeconds : Nat) :
    Redis × Nat :=
  if ¬ r.connected then (r, 0)
  else
    let (r1, n) := incr r k
    if n = 0 then (r, 0) else (expire r1 k expireSeconds, n)

/-- Result shape of `RedisService.check_email_rate_limit`. -/
structure RateCheck where
  allowed : Bool
  reason : Option String
  hourlyCount : Nat
  dailyCount : Nat
deriving Repr, DecidableEq

/-- `RedisService.check_email_rate_limit` (redis_service.py lines 77-121):
fail-open on unavailability and on its own errors; on admission both
counters are incremented through pipelines. -/
def check_email_rate_limit (cfg : Settings) (r : Redis) (emailHash : String) :
    RateCheck × Redis :=
  if ¬ r.connected then
    ({ allowed := true, reason := none, hourlyCount := 0, dailyCount := 0 }, r)
  else
    let hourlyKey := "email_rate_hourly:" ++ emailHash
    let dailyKey := "email_rate_daily:" ++ emailHash
    let hourlyCount := (get_rate_limit r hourlyKey).getD 0
    let dailyCount := (get_rate_limit r dailyKey).getD 0
    if cfg.hourlyLimit ≤ hourlyCount then
      ({ allowed := false, reason := some "hourly_limit",
         hourlyCount := hourlyCount, dailyCount := dailyCount }, r)
    else if cfg.dailyLimit ≤ dailyCount then
      ({ allowed := false, reason := some "daily_limit",
         hourlyCount := hourlyCount, dailyCount := dailyCount }, r)
    else
      let (r1, newHourly) := increment_rate_limit r hourlyKey 3600
      let (r2, newDaily) := increment_rate_limit r1 dailyKey 86400
      ({ allowed := true, reason := none,
         hourlyCount := newHourly, dailyCount := newDaily }, r2)

end RedisService

namespace EmailService

/-- Python `x or 0` on the result of `redis_service.get`, followed by
`int(...)`: None and the empty string become 0; any other string goes
through `int`, whose failure raises (None here). -/
def pyIntOrZero : Option String → Option Nat
  | none => some 0
  | some s => if s = "" then some 0 else pyInt? s

/-- `EmailService._check_rate_limit` (email_service.py lines 185-211):
reads both Redis counters (missing ⇒ 0), denies when either limit is
reached; an exception anywhere in the body — e.g. `int()` failing on a
non-numeric stored value — is caught and returns (False, "系统错误"). -/
def check_rate_limit (cfg : Settings) (r : Redis) (emailHash : String) :
    Bool × String :=
  let hourlyKey := "email_rate:hourly:" ++ emailHash
  let dailyKey := "email_rate:daily:" ++ emailHash
  match pyIntOrZero (RedisService.get r hourlyKey),
        pyIntOrZero (RedisService.get r dailyKey) with
  | some hourlyCount, some dailyCount =>
    if cfg.hourlyLimit ≤ hourlyCount then
      (false, "每小时发送限制已达到(" ++ toString cfg.hourlyLimit ++ "封)")
    else if cfg.dailyLimit ≤ dailyCount then
      (false, "每日发送限制已达到(" ++ toString cfg.dailyLimit ++ "封)")
    else (true, "")
  | _, _ => (false, "系统错误")

/-- `EmailService._increment_rate_limit` (email_service.py lines 213-229):
separate `incr` then `expire` calls for the hourly key, then for the
daily key; the expiry is set on every call. -/
def increment_rate_limit (r : Redis) (emailHash : String) : Redis :=
  let hourlyKey := "email_rate:hourly:" ++ emailHash
  let dailyKey := "email_rate:daily:" ++ emailHash
  let r1 := (RedisService.incr r hourlyKey).1
  let r2 := RedisService.expire r1 hourlyKey 3600
  let r3 := (RedisService.incr r2 dailyKey).1
  RedisService.expire r3 dailyKey 86400

end EmailService

/-! ## Attachment validation and storage
(`app/services/attachment_service.py`, plus the simpler validator and
store inside `app/services/email_service.py` that the mail-fetch loop
actually calls). -/

namespace AttachmentService

/-- The deny-list of `AttachmentService._is_safe_filename`. -/
def dangerous_chars : List String :=
  ["..", "/", "\\", ":", "*", "?", "\"", "<", ">", "|"]

/-- `AttachmentService._is_safe_filename` (attachment_service.py lines
44-60): no dangerous token, length at most 255, non-empty after strip. -/
def is_safe_filename (filename : String) : Bool :=
  if dangerous_chars.any (fun c => strContainsSub filename c) then false
  else if 255 < filename.length then false
  else if pyStrip filename = "" then false
  else true

/-- `AttachmentService._sanitize_filename`: keep alphanumerics and
`.-_()[]` and braces, replace the rest with underscores, then bound the
length at 200 preserving the extension. -/
def sanitize_filename (filename : String) : String :=
  let keep : List Char := ['.', '-', '_', '(', ')', '[', ']', '\x7b', '\x7d']
  let sanitized := String.mk (filename.toList.map
    (fun c => if c.isAlphanum || keep.contains c then c else '_'))
  if 200 < sanitized.length then
    let ext := splitextExt sanitized
    let name := String.mk (sanitized.toList.take (sanitized.length - ext.length))
    String.mk (name.toList.take (200 - ext.length)) ++ ext
  else sanitized

/-- MIME deny-list of `AttachmentService._is_malicious_file`. -/
def executable_mimes : List String :=
  ["application/x-executable", "application/x-msdos-program",
   "application/x-msdownload", "application/x-winexe",
   "application/x-dosexec"]

/-- Script-extension deny-list of `AttachmentService._is_malicious_file`. -/
def script_extensions : List String :=
  [".bat", ".cmd", ".com", ".exe", ".scr", ".vbs", ".js"]

/-- `AttachmentService._is_malicious_file` (attachment_service.py lines
136-171): executable MIME, script extension, or a PE (`MZ`) / ELF
(`\x7fELF`) header. -/
def is_malicious_file (fileData : List Nat) (filename mimeType : String) :
    Bool :=
  if executable_mimes.contains mimeType then true
  else if script_extensions.contains (pyLower (splitextExt filename)) then true
  else if 2 ≤ fileData.length &&
      (fileData.take 2 = [77, 90] || fileData.take 4 = [127, 69, 76, 70]) then
    true
  else false

/-- The file_info dictionary built by a successful validation. The sha256
`hash` entry is elided: no claim concerns it and the digest itself is
computed by an external library. -/
structure FileInfo where
  size : Nat
  mimeType : String
  extension : String
  sanitizedFilename : String
deriving Repr, DecidableEq

/-- Outcome of `AttachmentService.validate_attachment`. -/
inductive ValidationOutcome
  | invalid (reason : String)
  | valid (info : FileInfo)
deriving Repr, DecidableEq

/-- `AttachmentService.validate_attachment` (attachment_service.py lines
81-134). `mimeOf` is the content-sniffing oracle
(`_get_file_mime_type`, backed by libmagic with a mimetypes fallback).
The per-check error strings keep the fixed Chinese prefix of the source
messages; interpolated numerics are elided. -/
def validate_attachment (cfg : Settings) (mimeOf : List Nat → String → String)
    (fileData : List Nat) (filename : String) : ValidationOutcome :=
  if ¬ is_safe_filename filename then .invalid "文件名包含不安全字符"
  else
    let fileSize := fileData.length
    if fileSize = 0 then .invalid "文件为空"
    else if cfg.maxAttachmentSize < fileSize then .invalid "文件大小超过限制"
    else
      let fileExt := pyLower (splitextExt filename)
      if fileExt = "" then .invalid "文件没有扩展名"
      else if ¬ cfg.allowedExtensions.contains fileExt then
        .invalid "不支持的文件类型"
      else
        let mimeType := mimeOf fileData filename
        if is_malicious_file fileData filename mimeType then
          .invalid "检测到潜在恶意文件"
        else
          .valid { size := fileSize, mimeType := mimeType,
                   extension := fileExt,
                   sanitizedFilename := sanitize_filename filename }

/-- `AttachmentService.save_attachment` (attachment_service.py lines
173-224). `fsWrite` models opening and writing the target file: it
returns the bytes present on disk afterwards (possibly fewer than were
passed — a partial write), or none when the write raises. The
date-partitioned directory and the numeric collision suffix are elided
(the claims do not concern them); the stored name keeps the source shape
timestamp + truncated sender hash + sanitized name. Returns
(success, error message, stored reference). -/
def save_attachment (fileData : List Nat) (timestamp senderEmailHash : String)
    (info : FileInfo) (fsWrite : List Nat → Option (List Nat)) :
    Bool × String × String :=
  let storedFilename :=
    timestamp ++ "_" ++ String.mk (senderEmailHash.toList.take 8) ++ "_" ++
      info.sanitizedFilename
  match fsWrite fileData with
  | none => (false, "保存文件时出现错误", "")
  | some onDisk =>
    if ¬ onDisk.length = fileData.length then (false, "文件保存验证失败", "")
    else (true, "", storedFilename)

end AttachmentService

namespace EmailService

/-- `EmailService._validate_attachment` (email_service.py lines 257-273):
only a size ceiling and an extension allow-list — this, not
`AttachmentService.validate_attachment`, is what `fetch_new_emails`
calls. -/
def validate_attachment (cfg : Settings) (filename : String) (fileSize : Nat) :
    Bool × String :=
  if cfg.maxAttachmentSize < fileSize then (false, "文件大小超过限制")
  else
    let fileExt := pyLower (splitextExt filename)
    if ¬ cfg.allowedExtensions.contains fileExt then
      (false, "不支持的文件类型")
    else (true, "")

/-- `EmailService._save_attachment` (email_service.py lines 231-255):
writes the bytes and returns the stored filename with no post-write
verification; only a raised exception (none from `fsWrite`) fails, and
it is re-raised to the caller. -/
def save_attachment (fileData : List Nat) (timestamp emailHash8 : String)
    (filename : String) (fsWrite : List Nat → Option (List Nat)) :
    Option String :=
  match fsWrite fileData with
  | none => none
  | some _ => some (timestamp ++ "_" ++ emailHash8 ++ "_" ++ filename)

end EmailService

namespace EmailService

/-- `EmailService._extract_domain`: text after the last `@`, lowercased. -/
def extract_domain (emailAddress : String) : String :=
  pyLower (afterLast '@' emailAddress)

/-- `EmailService._check_domain_allowed` (email_service.py lines 159-183).
`dbRules` is the `EmailDomainRule` table as (domain, is_allowed) rows;
whitelist mode consults it (no rule ⇒ deny), otherwise the static
configured list is a membership test. -/
def check_domain_allowed (cfg : Settings) (dbRules : List (String × Bool))
    (emailAddress : String) : Bool :=
  let domain := extract_domain emailAddress
  if ¬ cfg.whitelistEnabled then cfg.allowedDomains.contains domain
  else
    match dbRules.find? (fun p => p.1 = domain) with
    | some rule => rule.2
    | none => false

/-- The system-sender filter inside `fetch_new_emails` (email_service.py
lines 356-360): sender address lowercased starts with one of the
configured prefixes. -/
def isSystemSender (cfg : Settings) (senderEmail : String) : Bool :=
  cfg.systemSenders.any
    (fun p => (pyLower p).toList.isPrefixOf (pyLower senderEmail).toList)

/-- One MIME part of a fetched message as `fetch_new_emails` inspects it:
its content-disposition, its (already header-decoded) filename, and its
decoded payload (`get_payload(decode=True)`, which may be None). -/
structure AttachmentPart where
  isAttachmentDisposition : Bool
  filename : Option String
  payload : Option (List Nat)
deriving Repr, DecidableEq

/-- A parsed message as `fetch_new_emails` sees it: the sender address
extracted by `email.utils.parseaddr` (none when not extractable), the
decoded subject, and the walked parts. -/
structure FetchedMsg where
  senderEmail : Option String
  subject : String
  parts : List AttachmentPart
deriving Repr, DecidableEq

/-- One attachment dictionary appended by the loop. -/
structure SavedAttachment where
  originalFilename : String
  storedFilename : String
  fileSize : Nat
deriving Repr, DecidableEq

/-- The attachment loop of `fetch_new_emails` (email_service.py lines
384-422): walk the parts, count attachment-disposition parts, break once
the count exceeds the ceiling (keeping what was already collected), skip
parts without filename or payload, skip validation failures, save the
rest. A save exception aborts the whole message (none). -/
def collect_attachments (cfg : Settings)
    (fsWrite : List Nat → Option (List Nat)) (timestamp emailHash8 : String) :
    List AttachmentPart → Nat → Option (List SavedAttachment)
  | [], _ => some []
  | part :: rest, attachmentCount =>
    if part.isAttachmentDisposition then
      let c := attachmentCount + 1
      if cfg.maxAttachmentCount < c then some []
      else
        match part.filename with
        | none => collect_attachments cfg fsWrite timestamp emailHash8 rest c
        | some filename =>
          match part.payload with
          | none => collect_attachments cfg fsWrite timestamp emailHash8 rest c
          | some attachmentData =>
            if ¬ (validate_attachment cfg filename attachmentData.length).1 then
              collect_attachments cfg fsWrite timestamp emailHash8 rest c
            else
              match save_attachment attachmentData timestamp emailHash8
                  filename fsWrite with
              | none => none
              | some stored =>
                (collect_attachments cfg fsWrite timestamp emailHash8 rest c).map
                  (fun tail =>
                    { originalFilename := filename, storedFilename := stored,
                      fileSize := attachmentData.length } :: tail)
    else collect_attachments cfg fsWrite timestamp emailHash8 rest attachmentCount

/-- A part from which the attachment loop can save nothing: not an
attachment part, no filename, no decodable payload, or a payload failing
`_validate_attachment`. -/
def partYieldsNothing (cfg : Settings) (p : AttachmentPart) : Prop :=
  p.isAttachmentDisposition = false ∨ p.filename = none ∨ p.payload = none ∨
  (∀ fn data, p.filename = some fn → p.payload = some data →
    (validate_attachment cfg fn data.length).1 = false)

/-- Observable effects of processing one message inside
`fetch_new_emails`. `recordProduced` is whether an email_record was
appended to `processed_emails` (each of its attachments later becomes
one UploadRecord in `save_email_records`). -/
structure MsgOutcome where
  markedRead : Bool
  savedAttachments : Nat
  rateIncremented : Bool
  limitNotificationAttempted : Bool
  recordProduced : Bool
deriving Repr, DecidableEq

/-- The per-message body of `fetch_new_emails` (email_service.py lines
332-453), for one fetched message. `hashEmail` abstracts
`_hash_email` (sha256 hexdigest of the lowercased address); `timestamp`
the wall clock; `fsWrite` the attachment file write. Control flow is the
source order: missing sender (skipped, unread), system sender (marked
read), domain check (denied ⇒ marked read), rate check (denied ⇒ limit
notification, NOT marked read), attachment loop (an exception there is
caught by the per-message handler, which still marks the message read),
increment + record only when attachments were collected, final mark as
read. Returns the effects and the Redis state after the message. -/
def process_message (cfg : Settings) (dbRules : List (String × Bool))
    (r : Redis) (hashEmail : String → String)
    (fsWrite : List Nat → Option (List Nat)) (timestamp : String)
    (msg : FetchedMsg) : MsgOutcome × Redis :=
  match msg.senderEmail with
  | none =>
    ({ markedRead := false, savedAttachments := 0, rateIncremented := false,
       limitNotificationAttempted := false, recordProduced := false }, r)
  | some senderEmail =>
    if isSystemSender cfg senderEmail then
      ({ markedRead := cfg.markAsRead, savedAttachments := 0,
         rateIncremented := false, limitNotificationAttempted := false,
         recordProduced := false }, r)
    else if ¬ check_domain_allowed cfg dbRules senderEmail then
      ({ markedRead := cfg.markAsRead, savedAttachments := 0,
         rateIncremented := false, limitNotificationAttempted := false,
         recordProduced := false }, r)
    else if ¬ (check_rate_limit cfg r (hashEmail senderEmail)).1 then
      ({ markedRead := false, savedAttachments := 0, rateIncremented := false,
         limitNotificationAttempted := true, recordProduced := false }, r)
    else
      let emailHash8 := String.mk ((hashEmail senderEmail).toList.take 8)
      match collect_attachments cfg fsWrite timestamp emailHash8 msg.parts 0 with
      | none =>
        ({ markedRead := cfg.markAsRead, savedAttachments := 0,
           rateIncremented := false, limitNotificationAttempted := false,
           recordProduced := false }, r)
      | some attachments =>
        if ¬ attachments.isEmpty then
          ({ markedRead := cfg.markAsRead,
             savedAttachments := attachments.length, rateIncremented := true,
             limitNotificationAttempted := false, recordProduced := true },
           increment_rate_limit r (hashEmail senderEmail))
        else
          ({ markedRead := cfg.markAsRead, savedAttachments := 0,
             rateIncremented := false, limitNotificationAttempted := false,
             recordProduced := false }, r)

/-- The message loop of `fetch_new_emails` over a whole cycle: fold
`process_message` over the fetched messages, threading Redis and
accumulating how many rate-limit notifications were attempted. -/
def process_messages (cfg : Settings) (dbRules : List (String × Bool))
    (hashEmail : String → String) (fsWrite : List Nat → Option (List Nat))
    (timestamp : String) : List FetchedMsg → Redis → Nat × Redis
  | [], r => (0, r)
  | msg :: rest, r =>
    let (outcome, r1) :=
      process_message cfg dbRules r hashEmail fsWrite timestamp msg
    let (n, r2) := process_messages cfg dbRules hashEmail fsWrite timestamp rest r1
    ((if outcome.limitNotificationAttempted then 1 else 0) + n, r2)

end EmailService

namespace NotificationService

/-- Effects of `NotificationService.send_rate_limit_notification`
(notification_service.py lines 306-348): its boolean result, the Redis
state afterwards (the notification marker lives in the Redis cache), and
whether an SMTP send was actually performed. `smtpOk` abstracts
connecting, rendering and `send_message` succeeding. Before sending it
checks the cache marker `rate_limit_notification:<email>:<limit type>` —
already present ⇒ return True without sending; on a successful send the
marker is cached for 3600 seconds. -/
def send_rate_limit_notification (r : Redis) (smtpOk : Bool)
    (toEmail limitType : String) : Bool × Redis × Bool :=
  let cacheKey := "rate_limit_notification:" ++ toEmail ++ ":" ++ limitType
  if (RedisService.get r cacheKey).isSome then (true, r, false)
  else
    if smtpOk then
      (true, r.setVal cacheKey { value := "sent", ttl := some 3600 }, true)
    else (false, r, true)

end NotificationService

/-! ## Tracker ids and the articles table
(`app/utils/tracker_utils.py`, `app/models/article.py`,
`app/services/tracker_service.py`, `app/api/v1/tracker.py`). -/

/-- `generate_tracker_id` (tracker_utils.py lines 12-34): prefix, first 8
and last 4 characters of a fresh UUID4 string, last 4 characters of the
integer Unix timestamp, joined with dashes and uppercased. The UUID and
the timestamp digits are inputs here (they are random / wall clock). -/
def generate_tracker_id (prefixTag uuidStr tsStr : String) : String :=
  let shortId := String.mk (uuidStr.toList.take 8) ++ "-" ++ takeLast uuidStr 4
  let timestamp := takeLast tsStr 4
  pyUpper (prefixTag ++ "-" ++ shortId ++ "-" ++ timestamp)

/-- The characters a UUID4 string is made of. -/
def uuidChars : List Char := "0123456789abcdef-".toList

/-- URL-safe alphabet for a tracker id: uppercase alphanumerics and the
dash (no character that needs percent-encoding in a URL path). -/
def urlSafeChar (c : Char) : Bool :=
  ('A' ≤ c && c ≤ 'Z') || ('0' ≤ c && c ≤ '9') || c = '-'

/-- The characters of `str(int(time.time()))`. -/
def digitChars : List Char := "0123456789".toList

/-- The `articles` row fields the tracker subsystem touches
(models/article.py): `tracker_id` is a nullable unique column. -/
structure ArticleRow where
  id : Nat
  trackerId : Option String
  processingStatus : String
deriving Repr, DecidableEq

/-- The articles table. -/
abbrev ArticlesDB := List ArticleRow

/-- The UNIQUE constraint on `articles.tracker_id`: two rows agreeing on a
present tracker id are the same row. -/
def uniqueTrackerIds (db : ArticlesDB) : Prop :=
  ∀ a ∈ db, ∀ b ∈ db, ∀ t : String,
    a.trackerId = some t → b.trackerId = some t → a = b

/-- Inserting a row as the storage layer does for `db.add` + commit: the
UNIQUE constraint on `tracker_id` makes the commit fail (none) when a
present tracker id is already taken; no in-memory pre-check exists. -/
def insert_article (db : ArticlesDB) (row : ArticleRow) : Option ArticlesDB :=
  match row.trackerId with
  | none => some (row :: db)
  | some t =>
    if db.any (fun a => a.trackerId = some t) then none else some (row :: db)

namespace TrackerService

/-- The query of `TrackerService.get_tracker_status` (tracker_service.py
lines 36-42): `select(Article).where(Article.tracker_id == tracker_id)`
with `scalar_one_or_none` — an exact string match on the queried id. -/
def lookup_tracker (db : ArticlesDB) (trackerId : String) : Option ArticleRow :=
  db.find? (fun a => a.trackerId = some trackerId)

end TrackerService

namespace TrackerApi

/-- The only validation the GET endpoint applies to the path parameter
(api/v1/tracker.py lines 86-95): non-empty and at most 36 characters.
No case normalization happens here or anywhere downstream. -/
def valid_tracker_id_format (trackerId : String) : Bool :=
  ¬ (trackerId = "" || 36 < trackerId.length)

end TrackerApi

/-! ## The background check loop
(`app/tasks/email_tasks.py::EmailTaskManager._email_check_loop`). -/

namespace EmailTaskManager

/-- The mutable counters of `EmailTaskManager.stats` that one cycle
touches. -/
structure TaskStats where
  totalEmailsProcessed : Nat
  totalAttachmentsSaved : Nat
  errorsCount : Nat
  lastCheckSet : Bool
deriving Repr, DecidableEq

/-- How one cycle of `_email_check_loop` can go: the fetch+save phase hits
the 30-second `asyncio.wait_for` timeout; the fetch returns records
(given by their attachment counts) and `save_email_records` commits; or
the fetch returned records but saving raised (caught by the outer
handler; the transaction was rolled back). -/
inductive CycleEvent
  | fetchTimeout
  | fetched (attachmentCounts : List Nat)
  | fetchedSaveFailed (attachmentCounts : List Nat)
deriving Repr, DecidableEq

/-- One iteration of `_email_check_loop` (email_tasks.py lines 77-123),
given how the fetch+save phase went. Returns the stats afterwards, the
number of UploadRecords the cycle created (one per saved attachment,
committed all-or-nothing by `save_email_records`), and whether the loop
proceeds to the next scheduled cycle. Timeout is caught by the inner
handler (error count up by one, last-check still stamped); any other
exception by the outer handler (error count up by one); both fall
through to the sleep, so the loop always continues. -/
def email_check_cycle (st : TaskStats) (ev : CycleEvent) :
    TaskStats × Nat × Bool :=
  match ev with
  | .fetchTimeout =>
    ({ st with errorsCount := st.errorsCount + 1, lastCheckSet := true },
     0, true)
  | .fetched recs =>
    if ¬ recs.isEmpty then
      ({ st with
          totalEmailsProcessed := st.totalEmailsProcessed + recs.length,
          totalAttachmentsSaved := st.totalAttachmentsSaved + recs.sum,
          lastCheckSet := true },
       recs.sum, true)
    else ({ st with lastCheckSet := true }, 0, true)
  | .fetchedSaveFailed _ =>
    ({ st with errorsCount := st.errorsCount + 1 }, 0, true)

end EmailTaskManager

/-! ## Shared lemmas about the Redis store model. -/

theorem find?_filter_ne {k k2 : String} (h : ¬ k2 = k)
    (l : List (String × RedisVal)) :
    (l.filter (fun p => ¬ p.1 = k)).find? (fun p => p.1 = k2) =
      l.find? (fun p => p.1 = k2) := by
  induction l with
  | nil => rfl
  | cons p l ih =>
    rw [List.filter_cons, List.find?_cons]
    by_cases hp : p.1 = k
    · have hq : ¬ p.1 = k2 := fun hk => h (hk ▸ hp)
      rw [decide_eq_false hq, if_neg (by simp [hp])]
      exact ih
    · rw [if_pos (by simp [hp]), List.find?_cons]
      by_cases hq : p.1 = k2
      · rw [decide_eq_true hq]
      · rw [decide_eq_false hq]
        exact ih

theorem lookup_setVal_self (r : Redis) (k : String) (v : RedisVal) :
    (r.setVal k v).lookup k = some v := by
  simp [Redis.lookup, Redis.setVal, List.find?_cons]

theorem lookup_setVal_ne (r : Redis) (k k2 : String) (v : RedisVal)
    (h : ¬ k2 = k) : (r.setVal k v).lookup k2 = r.lookup k2 := by
  have hk : ¬ k = k2 := fun hk => h hk.symm
  simp only [Redis.lookup, Redis.setVal, List.find?_cons, decide_eq_false hk,
    find?_filter_ne h]

theorem connected_setVal (r : Redis) (k : String) (v : RedisVal) :
    (r.setVal k v).connected = r.connected := rfl

theorem incr_at_numeric (r : Redis) (k : String) (v : RedisVal) (n : Nat)
    (hc : r.connected = true) (hl : r.lookup k = some v)
    (hp : pyInt? v.value = some n) :
    RedisService.incr r k =
      (r.setVal k { value := toString (n + 1), ttl := v.ttl }, n + 1) := by
  simp [RedisService.incr, hc, hl, hp]

theorem expire_at_present (r : Redis) (k : String) (v : RedisVal) (secs : Nat)
    (hc : r.connected = true) (hl : r.lookup k = some v) :
    RedisService.expire r k secs =
      r.setVal k { value := v.value, ttl := some secs } := by
  simp [RedisService.expire, hc, hl]

theorem daily_key_ne_hourly_key (eh : String) :
    ¬ ("email_rate:daily:" ++ eh) = ("email_rate:hourly:" ++ eh) := by
  intro heq
  have hlen := congrArg String.length heq
  simp [String.length_append] at hlen
  exact absurd hlen (by decide)

/-! ## Claim C1 -/

/-- C1 (corrected): when the shared counter store is unavailable, both
rate-limit checks admit the sender; `RedisService.check_email_rate_limit`
treats disconnection as allowed, and `EmailService._check_rate_limit`
reads None counters that default to 0, below the (positive) limits. The
original claim also asserted fail-open when the check itself fails,
which `C1_fail_closed_counterexample` refutes. -/
theorem C1_rate_check_fail_open_on_unavailability (cfg : Settings) (r : Redis)
    (emailHash : String) (hconn : r.connected = false)
    (hh : 0 < cfg.hourlyLimit) (hd : 0 < cfg.dailyLimit) :
    EmailService.check_rate_limit cfg r emailHash = (true, "") ∧
    (RedisService.check_email_rate_limit cfg r emailHash).1.allowed = true := by
  constructor
  · simp [EmailService.check_rate_limit, RedisService.get, hconn,
      EmailService.pyIntOrZero, Nat.not_le.mpr hh, Nat.not_le.mpr hd]
  · simp [RedisService.check_email_rate_limit, hconn]

/-- Witness for C1 at the default settings and a disconnected Redis. -/
theorem C1_rate_check_fail_open_on_unavailability_witness :
    EmailService.check_rate_limit defaultSettings
      { connected := false, store := [] } "h" = (true, "") ∧
    (RedisService.check_email_rate_limit defaultSettings
      { connected := false, store := [] } "h").1.allowed = true :=
  C1_rate_check_fail_open_on_unavailability defaultSettings
    { connected := false, store := [] } "h" rfl (by decide) (by decide)

/-- C1 counterexample to the claim as stated: a failure of the check
itself — here `int()` raising on a non-numeric stored counter — makes
`EmailService._check_rate_limit` return (False, "系统错误"): the sender
is denied, not admitted. -/
theorem C1_fail_closed_counterexample :
    EmailService.check_rate_limit defaultSettings
      { connected := true,
        store := [("email_rate:hourly:h", { value := "abc", ttl := none })] }
      "h" = (false, "系统错误") := by decide

/-! ## Claim C7 -/

/-- C7 (corrected): on an admitted message
`EmailService._increment_rate_limit` increments both counters and arms
the expiry of the hourly key to 3600 and the daily key to 86400 on EVERY
increment — whatever TTL the keys carried before, i.e. not only on the
first increment of a window. (It also issues `incr` and `expire` as
separate commands, not one atomic operation.) -/
theorem C7_increment_rearms_expiry_every_time (r : Redis) (eh : String)
    (hv dv : RedisVal) (hn dn : Nat) (hconn : r.connected = true)
    (hhk : r.lookup ("email_rate:hourly:" ++ eh) = some hv)
    (hdk : r.lookup ("email_rate:daily:" ++ eh) = some dv)
    (hhp : pyInt? hv.value = some hn) (hdp : pyInt? dv.value = some dn) :
    (EmailService.increment_rate_limit r eh).lookup ("email_rate:hourly:" ++ eh)
      = some { value := toString (hn + 1), ttl := some 3600 } ∧
    (EmailService.increment_rate_limit r eh).lookup ("email_rate:daily:" ++ eh)
      = some { value := toString (dn + 1), ttl := some 86400 } := by
  have hne : ¬ ("email_rate:daily:" ++ eh) = ("email_rate:hourly:" ++ eh) :=
    daily_key_ne_hourly_key eh
  have hne2 : ¬ ("email_rate:hourly:" ++ eh) = ("email_rate:daily:" ++ eh) :=
    fun q => hne q.symm
  constructor <;>
    simp [EmailService.increment_rate_limit, RedisService.incr,
      RedisService.expire, hconn, connected_setVal, hhk, hdk, hhp, hdp,
      lookup_setVal_self, lookup_setVal_ne, hne, hne2]

/-- Witness for C7: both keys already held count 1 with partially elapsed
TTLs (1800 and 43200); after the increment the counts are 2 and the TTLs
are re-armed to the full 3600 and 86400. -/
theorem C7_increment_rearms_expiry_every_time_witness :
    (EmailService.increment_rate_limit
      { connected := true,
        store := [("email_rate:hourly:h", { value := "1", ttl := some 1800 }),
                  ("email_rate:daily:h", { value := "1", ttl := some 43200 })] }
      "h").lookup "email_rate:hourly:h"
      = some { value := "2", ttl := some 3600 } ∧
    (EmailService.increment_rate_limit
      { connected := true,
        store := [("email_rate:hourly:h", { value := "1", ttl := some 1800 }),
                  ("email_rate:daily:h", { value := "1", ttl := some 43200 })] }
      "h").lookup "email_rate:daily:h"
      = some { value := "2", ttl := some 86400 } :=
  C7_increment_rearms_expiry_every_time
    { connected := true,
      store := [("email_rate:hourly:h", { value := "1", ttl := some 1800 }),
                ("email_rate:daily:h", { value := "1", ttl := some 43200 })] }
    "h" { value := "1", ttl := some 1800 } { value := "1", ttl := some 43200 }
    1 1 rfl (by decide) (by decide) (by decide) (by decide)

/-- C7 counterexample to the claim as stated: the hourly window was
half-elapsed (TTL 1800, count already 1 — so this is not the counter's
first increment in its window), yet the increment re-arms the expiry to
the full 3600 seconds, extending the window's reset time. -/
theorem C7_expiry_rearm_counterexample :
    (EmailService.increment_rate_limit
      { connected := true,
        store := [("email_rate:hourly:h", { value := "1", ttl := some 1800 }),
                  ("email_rate:daily:h", { value := "1", ttl := some 43200 })] }
      "h").lookup "email_rate:hourly:h"
      = some { value := "2", ttl := some 3600 } ∧ ¬ (3600 : Nat) = 1800 := by
  decide

/-! ## Claim C3 -/

/-- C3 (confirmed): `AttachmentService.validate_attachment` performs its
checks in the stated order, short-circuiting on the first failure:
filename safety, non-zero size, size ceiling, extension (present and in
the allowed set), then the content-sniffed MIME/signature deny-list;
each stage's outcome is characterized under the assumption that the
earlier stages passed, and a filename containing the path-traversal
token `..` is rejected by the first stage regardless of its
extension, content or size. -/
theorem C3_validation_order (cfg : Settings)
    (mimeOf : List Nat → String → String) (fileData : List Nat)
    (filename : String) :
    (AttachmentService.is_safe_filename filename = false →
      AttachmentService.validate_attachment cfg mimeOf fileData filename =
        .invalid "文件名包含不安全字符") ∧
    (strContainsSub filename ".." = true →
      AttachmentService.validate_attachment cfg mimeOf fileData filename =
        .invalid "文件名包含不安全字符") ∧
    (AttachmentService.is_safe_filename filename = true → fileData = [] →
      AttachmentService.validate_attachment cfg mimeOf fileData filename =
        .invalid "文件为空") ∧
    (AttachmentService.is_safe_filename filename = true → ¬ fileData = [] →
      cfg.maxAttachmentSize < fileData.length →
      AttachmentService.validate_attachment cfg mimeOf fileData filename =
        .invalid "文件大小超过限制") ∧
    (AttachmentService.is_safe_filename filename = true → ¬ fileData = [] →
      fileData.length ≤ cfg.maxAttachmentSize →
      pyLower (splitextExt filename) = "" →
      AttachmentService.validate_attachment cfg mimeOf fileData filename =
        .invalid "文件没有扩展名") ∧
    (AttachmentService.is_safe_filename filename = true → ¬ fileData = [] →
      fileData.length ≤ cfg.maxAttachmentSize →
      ¬ pyLower (splitextExt filename) = "" →
      cfg.allowedExtensions.contains (pyLower (splitextExt filename)) = false →
      AttachmentService.validate_attachment cfg mimeOf fileData filename =
        .invalid "不支持的文件类型") ∧
    (AttachmentService.is_safe_filename filename = true → ¬ fileData = [] →
      fileData.length ≤ cfg.maxAttachmentSize →
      ¬ pyLower (splitextExt filename) = "" →
      cfg.allowedExtensions.contains (pyLower (splitextExt filename)) = true →
      AttachmentService.is_malicious_file fileData filename
        (mimeOf fileData filename) = true →
      AttachmentService.validate_attachment cfg mimeOf fileData filename =
        .invalid "检测到潜在恶意文件") ∧
    (AttachmentService.is_safe_filename filename = true → ¬ fileData = [] →
      fileData.length ≤ cfg.maxAttachmentSize →
      ¬ pyLower (splitextExt filename) = "" →
      cfg.allowedExtensions.contains (pyLower (splitextExt filename)) = true →
      AttachmentService.is_malicious_file fileData filename
        (mimeOf fileData filename) = false →
      AttachmentService.validate_attachment cfg mimeOf fileData filename =
        .valid { size := fileData.length,
                 mimeType := mimeOf fileData filename,
                 extension := pyLower (splitextExt filename),
                 sanitizedFilename :=
                   AttachmentService.sanitize_filename filename }) := by
  refine ⟨?_, ?_, ?_, ?_, ?_, ?_, ?_, ?_⟩
  · intro h1
    simp [AttachmentService.validate_attachment, h1]
  · intro hdot
    have h1 : AttachmentService.is_safe_filename filename = false := by
      have hany : AttachmentService.dangerous_chars.any
          (fun c => strContainsSub filename c) = true := by
        refine List.any_eq_true.mpr ⟨"..", ?_, hdot⟩
        simp [AttachmentService.dangerous_chars]
      simp [AttachmentService.is_safe_filename, hany]
    simp [AttachmentService.validate_attachment, h1]
  · intro h1 h2
    simp [AttachmentService.validate_attachment, h1, h2]
  · intro h1 h2 h3
    simp [AttachmentService.validate_attachment, h1, h3,
      List.length_eq_zero, h2]
  · intro h1 h2 h3 h4
    simp [AttachmentService.validate_attachment, h1, Nat.not_lt.mpr h3,
      List.length_eq_zero, h2, h4]
  · intro h1 h2 h3 h4 h5
    have h5m : pyLower (splitextExt filename) ∉ cfg.allowedExtensions := by
      simpa using h5
    simp [AttachmentService.validate_attachment, h1, Nat.not_lt.mpr h3,
      List.length_eq_zero, h2, h4, h5m]
  · intro h1 h2 h3 h4 h5 h6
    have h5m : pyLower (splitextExt filename) ∈ cfg.allowedExtensions := by
      simpa using h5
    simp [AttachmentService.validate_attachment, h1, Nat.not_lt.mpr h3,
      List.length_eq_zero, h2, h4, h5m, h6]
  · intro h1 h2 h3 h4 h5 h6
    have h5m : pyLower (splitextExt filename) ∈ cfg.allowedExtensions := by
      simpa using h5
    simp [AttachmentService.validate_attachment, h1, Nat.not_lt.mpr h3,
      List.length_eq_zero, h2, h4, h5m, h6]

/-- Witness for C3: `../secret` is rejected as unsafe even with an
executable (MZ) payload, and a small clean `a.pdf` passes every stage. -/
theorem C3_validation_order_witness :
    AttachmentService.validate_attachment defaultSettings
      (fun _ _ => "application/pdf") [77, 90] "../secret" =
      .invalid "文件名包含不安全字符" ∧
    AttachmentService.validate_attachment defaultSettings
      (fun _ _ => "application/pdf") [37, 80, 68, 70] "a.pdf" =
      .valid { size := 4, mimeType := "application/pdf", extension := ".pdf",
               sanitizedFilename := "a.pdf" } :=
  ⟨(C3_validation_order defaultSettings (fun _ _ => "application/pdf")
      [77, 90] "../secret").2.1 (by decide),
   (C3_validation_order defaultSettings (fun _ _ => "application/pdf")
      [37, 80, 68, 70] "a.pdf").2.2.2.2.2.2.2 (by decide) (by decide)
      (by decide) (by decide) (by decide) (by decide)⟩

/-! ## Claim C4 -/

/-- C4 (corrected): `AttachmentService.save_attachment` succeeds only when
the persisted byte count equals the input length, and on failure returns
no stored reference; but `EmailService._save_attachment` — the store the
mail-fetch pipeline actually calls — returns a stored reference whenever
the write does not raise, performing no size verification, so its
success does not guarantee the persisted length equals the recorded
fileSizeBytes. -/
theorem C4_store_size_verification (fileData : List Nat)
    (timestamp senderEmailHash emailHash8 filename : String)
    (info : AttachmentService.FileInfo)
    (fsWrite : List Nat → Option (List Nat)) :
    ((AttachmentService.save_attachment fileData timestamp senderEmailHash
        info fsWrite).1 = true →
      ∃ onDisk, fsWrite fileData = some onDisk ∧
        onDisk.length = fileData.length) ∧
    ((AttachmentService.save_attachment fileData timestamp senderEmailHash
        info fsWrite).1 = false →
      (AttachmentService.save_attachment fileData timestamp senderEmailHash
        info fsWrite).2.2 = "") ∧
    (∀ onDisk, fsWrite fileData = some onDisk →
      EmailService.save_attachment fileData timestamp emailHash8 filename
        fsWrite =
        some (timestamp ++ "_" ++ emailHash8 ++ "_" ++ filename)) := by
  refine ⟨?_, ?_, ?_⟩
  · intro hs
    cases hw : fsWrite fileData with
    | none => simp [AttachmentService.save_attachment, hw] at hs
    | some onDisk =>
      refine ⟨onDisk, rfl, ?_⟩
      by_cases hlen : onDisk.length = fileData.length
      · exact hlen
      · simp [AttachmentService.save_attachment, hw, hlen] at hs
  · intro hs
    cases hw : fsWrite fileData with
    | none => simp [AttachmentService.save_attachment, hw]
    | some onDisk =>
      by_cases hlen : onDisk.length = fileData.length
      · simp [AttachmentService.save_attachment, hw, hlen] at hs
      · simp [AttachmentService.save_attachment, hw, hlen]
  · intro onDisk hw
    simp [EmailService.save_attachment, hw]

/-- Witness for C4: a write that persists the bytes intact satisfies the
verified store; the pipeline store returns its reference for the same
write. -/
theorem C4_store_size_verification_witness :
    (∃ onDisk, some [1, 2] = some onDisk ∧ onDisk.length = [1, 2].length) ∧
    EmailService.save_attachment [1, 2] "t" "h8" "a.pdf" some =
      some ("t" ++ "_" ++ "h8" ++ "_" ++ "a.pdf") :=
  ⟨(C4_store_size_verification [1, 2] "t" "hash" "h8" "a.pdf"
      { size := 2, mimeType := "application/pdf", extension := ".pdf",
        sanitizedFilename := "a.pdf" } some).1 (by decide),
   (C4_store_size_verification [1, 2] "t" "hash" "h8" "a.pdf"
      { size := 2, mimeType := "application/pdf", extension := ".pdf",
        sanitizedFilename := "a.pdf" } some).2.2 [1, 2] rfl⟩

/-- C4 counterexample to the claim as stated: a write that persists only
1 of 4 bytes without raising still makes `EmailService._save_attachment`
return a stored reference — success with a persisted byte count that
differs from the input length. -/
theorem C4_pipeline_store_counterexample :
    EmailService.save_attachment [0, 1, 2, 3] "ts" "hash8" "a.txt"
      (fun _ => some [0]) = some "ts_hash8_a.txt" ∧
    ¬ ([0].length = [0, 1, 2, 3].length) := by decide

/-! ## Claim C6 -/

/-- C6 (confirmed): insertion under the UNIQUE constraint on
`articles.tracker_id` preserves the one-row-per-id invariant, and under
that invariant the lookup used by `TrackerService.get_tracker_status`
returns exactly the row carrying the queried id: it succeeds, the
returned row's tracker id equals the queried id, and every row with that
id is that row. -/
theorem C6_tracker_lookup_unique (db : ArticlesDB) (row : ArticleRow)
    (t : String) :
    (uniqueTrackerIds db → ∀ db2, insert_article db row = some db2 →
      uniqueTrackerIds db2) ∧
    (uniqueTrackerIds db → ∀ a ∈ db, a.trackerId = some t →
      TrackerService.lookup_tracker db t = some a ∧ a.trackerId = some t ∧
      ∀ b ∈ db, b.trackerId = some t → b = a) := by
  constructor
  · intro hu db2 hins
    unfold insert_article at hins
    cases hrow : row.trackerId with
    | none =>
      rw [hrow] at hins
      simp only [Option.some.injEq] at hins
      subst hins
      intro a ha b hb t2 hat hbt
      rcases List.mem_cons.mp ha with ha1 | ha2
      · subst ha1
        rw [hrow] at hat
        exact absurd hat (by simp)
      · rcases List.mem_cons.mp hb with hb1 | hb2
        · subst hb1
          rw [hrow] at hbt
          exact absurd hbt (by simp)
        · exact hu a ha2 b hb2 t2 hat hbt
    | some t0 =>
      rw [hrow] at hins
      by_cases hany : db.any (fun a => a.trackerId = some t0)
      · simp [hany] at hins
      · simp only [hany, if_false, Bool.false_eq_true, if_neg,
          Option.some.injEq] at hins
        subst hins
        have hno : ∀ c ∈ db, ¬ c.trackerId = some t0 := by
          intro c hc hct
          exact hany (List.any_eq_true.mpr ⟨c, hc, by simp [hct]⟩)
        intro a ha b hb t2 hat hbt
        rcases List.mem_cons.mp ha with ha1 | ha2
        · rcases List.mem_cons.mp hb with hb1 | hb2
          · rw [ha1, hb1]
          · subst ha1
            rw [hrow] at hat
            cases hat
            exact absurd hbt (hno b hb2)
        · rcases List.mem_cons.mp hb with hb1 | hb2
          · subst hb1
            rw [hrow] at hbt
            cases hbt
            exact absurd hat (hno a ha2)
          · exact hu a ha2 b hb2 t2 hat hbt
  · intro hu a ha hat
    have hsome : (db.find? (fun b => b.trackerId = some t)).isSome := by
      rw [List.find?_isSome]
      exact ⟨a, ha, by simp [hat]⟩
    rcases Option.isSome_iff_exists.mp hsome with ⟨b, hb⟩
    have hbt : b.trackerId = some t := by
      have := List.find?_some hb
      simpa using this
    have hbmem : b ∈ db := List.mem_of_find?_eq_some hb
    have hba : b = a := hu b hbmem a ha t hbt hat
    refine ⟨?_, hat, ?_⟩
    · rw [TrackerService.lookup_tracker, hb, hba]
    · intro c hc hct
      exact hu c hc a ha t hct hat

/-- Witness for C6: a one-row table satisfies the invariant and lookup of
its persisted id returns that row with the queried id. -/
theorem C6_tracker_lookup_unique_witness :
    TrackerService.lookup_tracker
      [{ id := 1, trackerId := some "EMAIL-AB12CD34-EF56-7890",
         processingStatus := "pending" }] "EMAIL-AB12CD34-EF56-7890" =
      some { id := 1, trackerId := some "EMAIL-AB12CD34-EF56-7890",
             processingStatus := "pending" } ∧
    ({ id := 1, trackerId := some "EMAIL-AB12CD34-EF56-7890",
       processingStatus := "pending" } : ArticleRow).trackerId =
      some "EMAIL-AB12CD34-EF56-7890" := by
  have h := (C6_tracker_lookup_unique
      [{ id := 1, trackerId := some "EMAIL-AB12CD34-EF56-7890",
         processingStatus := "pending" }]
      { id := 1, trackerId := some "EMAIL-AB12CD34-EF56-7890",
        processingStatus := "pending" } "EMAIL-AB12CD34-EF56-7890").2
    (by
      intro a ha b hb t2 hat hbt
      rw [List.mem_singleton] at ha hb
      rw [ha, hb])
    { id := 1, trackerId := some "EMAIL-AB12CD34-EF56-7890",
      processingStatus := "pending" } (by simp) rfl
  exact ⟨h.1, h.2.1⟩

/-! ## Claim C8 -/

theorem toList_mk (l : List Char) : (String.mk l).toList = l := rfl

theorem length_mk (l : List Char) : (String.mk l).length = l.length := rfl

theorem toList_length (s : String) : s.toList.length = s.length := rfl

theorem toList_append (s t : String) :
    (s ++ t).toList = s.toList ++ t.toList := String.data_append s t

theorem urlSafe_toUpper_of_uuidChar (c : Char) (h : c ∈ uuidChars) :
    urlSafeChar c.toUpper = true := by
  fin_cases h <;> decide

theorem urlSafe_toUpper_of_digitChar (c : Char) (h : c ∈ digitChars) :
    urlSafeChar c.toUpper = true := by
  fin_cases h <;> decide

/-- C8 (corrected): an id generated with the `EMAIL` prefix from a
well-formed UUID4 string and a timestamp is 24 characters — within the
36-character column bound — and every character is URL-safe; and the
lookup used for status queries matches the stored id exactly (a returned
row always carries precisely the queried string), so lookup is NOT
case-normalized: the original claim's case-insensitivity fails, see the
counterexample. -/
theorem C8_tracker_id_format (uuidStr tsStr : String) (db : ArticlesDB)
    (q : String) (a : ArticleRow) (hlen : uuidStr.length = 36)
    (huuid : ∀ c ∈ uuidStr.toList, c ∈ uuidChars)
    (hts : 4 ≤ tsStr.length) (htsd : ∀ c ∈ tsStr.toList, c ∈ digitChars) :
    (generate_tracker_id "EMAIL" uuidStr tsStr).length = 24 ∧
    (generate_tracker_id "EMAIL" uuidStr tsStr).length ≤ 36 ∧
    (∀ c ∈ (generate_tracker_id "EMAIL" uuidStr tsStr).toList,
      urlSafeChar c = true) ∧
    (TrackerService.lookup_tracker db q = some a → a.trackerId = some q) := by
  have hulen : uuidStr.toList.length = 36 := hlen
  have htlen : tsStr.toList.length = tsStr.length := rfl
  have hlen24 : (generate_tracker_id "EMAIL" uuidStr tsStr).length = 24 := by
    simp [generate_tracker_id, pyUpper, takeLast, length_mk, toList_mk,
      toList_append, List.length_append, List.length_map, List.length_take,
      List.length_drop, hulen, toList_length, hlen]
    omega
  refine ⟨hlen24, by omega, ?_, ?_⟩
  · intro c hc
    rw [generate_tracker_id] at hc
    simp only [pyUpper, toList_mk, List.mem_map] at hc
    obtain ⟨d, hd, rfl⟩ := hc
    simp only [toList_append, toList_mk, takeLast, List.mem_append,
      or_assoc] at hd
    rcases hd with hd | hd | hd | hd | hd | hd | hd
    · fin_cases hd <;> decide
    · fin_cases hd <;> decide
    · exact urlSafe_toUpper_of_uuidChar d (huuid d (List.take_subset _ _ hd))
    · fin_cases hd <;> decide
    · exact urlSafe_toUpper_of_uuidChar d (huuid d (List.drop_subset _ _ hd))
    · fin_cases hd <;> decide
    · exact urlSafe_toUpper_of_digitChar d (htsd d (List.drop_subset _ _ hd))
  · intro hfind
    have := List.find?_some hfind
    simpa using this

/-- Witness for C8 on a concrete UUID4 string and timestamp. -/
theorem C8_tracker_id_format_witness :
    (generate_tracker_id "EMAIL" "12e45678-9abc-4def-8123-456789abcdef"
      "1733000000").length = 24 ∧
    (generate_tracker_id "EMAIL" "12e45678-9abc-4def-8123-456789abcdef"
      "1733000000").length ≤ 36 := by
  have h := C8_tracker_id_format "12e45678-9abc-4def-8123-456789abcdef"
    "1733000000"
    [{ id := 1, trackerId := some "T", processingStatus := "pending" }] "T"
    { id := 1, trackerId := some "T", processingStatus := "pending" }
    (by decide) (by decide) (by decide) (by decide)
  exact ⟨h.1, h.2.1⟩

/-- C8 counterexample to the claim as stated: the generated-style id
`EMAIL-AB12CD34-EF56-7890` is stored, the lowercased form passes the
endpoint's only validation (length ≤ 36), yet exact-match lookup finds
nothing — lookup is not case-normalized. -/
theorem C8_case_lookup_counterexample :
    TrackerService.lookup_tracker
      [{ id := 1, trackerId := some "EMAIL-AB12CD34-EF56-7890",
         processingStatus := "pending" }] "email-ab12cd34-ef56-7890" = none ∧
    TrackerApi.valid_tracker_id_format "email-ab12cd34-ef56-7890" = true ∧
    TrackerService.lookup_tracker
      [{ id := 1, trackerId := some "EMAIL-AB12CD34-EF56-7890",
         processingStatus := "pending" }] "EMAIL-AB12CD34-EF56-7890" =
      some { id := 1, trackerId := some "EMAIL-AB12CD34-EF56-7890",
             processingStatus := "pending" } := by
  refine ⟨by decide, by decide, by decide⟩

/-! ## Claim C2 -/

/-- C2 (corrected): a policy-rejected message produces no record and no
rate-counter increment, but the two rejection kinds behave differently
from the claim: a domain rejection marks the message read (when the
mark-as-read setting is enabled) and attempts NO notification to the
sender, while a rate-limit rejection attempts the limit notification but
does NOT mark the message read. -/
theorem C2_policy_denied_effects (cfg : Settings)
    (dbRules : List (String × Bool)) (r : Redis) (hashEmail : String → String)
    (fsWrite : List Nat → Option (List Nat)) (timestamp : String)
    (msg : EmailService.FetchedMsg) (sender : String)
    (hs : msg.senderEmail = some sender)
    (hsys : EmailService.isSystemSender cfg sender = false) :
    (EmailService.check_domain_allowed cfg dbRules sender = false →
      EmailService.process_message cfg dbRules r hashEmail fsWrite timestamp
        msg =
        ({ markedRead := cfg.markAsRead, savedAttachments := 0,
           rateIncremented := false, limitNotificationAttempted := false,
           recordProduced := false }, r)) ∧
    (EmailService.check_domain_allowed cfg dbRules sender = true →
      (EmailService.check_rate_limit cfg r (hashEmail sender)).1 = false →
      EmailService.process_message cfg dbRules r hashEmail fsWrite timestamp
        msg =
        ({ markedRead := false, savedAttachments := 0,
           rateIncremented := false, limitNotificationAttempted := true,
           recordProduced := false }, r)) := by
  constructor
  · intro hdom
    simp [EmailService.process_message, hs, hsys, hdom]
  · intro hdom hrate
    simp [EmailService.process_message, hs, hsys, hdom, hrate]

/-- Witness for C2 at concrete denied messages: a sender whose domain is
not in the configured list, and a sender at the hourly ceiling. -/
theorem C2_policy_denied_effects_witness :
    EmailService.process_message defaultSettings []
      { connected := true, store := [] } (fun _ => "H") (fun bs => some bs)
      "ts" { senderEmail := some "user@blocked.com", subject := "s",
             parts := [] } =
      ({ markedRead := true, savedAttachments := 0, rateIncremented := false,
         limitNotificationAttempted := false, recordProduced := false },
       { connected := true, store := [] }) ∧
    EmailService.process_message defaultSettings []
      { connected := true,
        store := [("email_rate:hourly:H", { value := "5", ttl := some 100 })] }
      (fun _ => "H") (fun bs => some bs) "ts"
      { senderEmail := some "user@gmail.com", subject := "s", parts := [] } =
      ({ markedRead := false, savedAttachments := 0, rateIncremented := false,
         limitNotificationAttempted := true, recordProduced := false },
       { connected := true,
         store := [("email_rate:hourly:H",
           { value := "5", ttl := some 100 })] }) :=
  ⟨(C2_policy_denied_effects defaultSettings []
      { connected := true, store := [] } (fun _ => "H") (fun bs => some bs)
      "ts" _ "user@blocked.com" rfl (by decide)).1 (by decide),
   (C2_policy_denied_effects defaultSettings []
      { connected := true,
        store := [("email_rate:hourly:H", { value := "5", ttl := some 100 })] }
      (fun _ => "H") (fun bs => some bs) "ts" _ "user@gmail.com" rfl
      (by decide)).2 (by decide) (by decide)⟩

/-- C2 counterexample to the claim as stated: a domain-rejected message
triggers no notification attempt, and a rate-limit-rejected message is
not marked read — each contradicting one conjunct of the claim. -/
theorem C2_policy_denied_counterexample :
    EmailService.check_domain_allowed defaultSettings [] "user@blocked.com" =
      false ∧
    (EmailService.process_message defaultSettings []
      { connected := true, store := [] } (fun _ => "H") (fun bs => some bs)
      "ts" { senderEmail := some "user@blocked.com", subject := "s",
             parts := [] }).1.limitNotificationAttempted = false ∧
    (EmailService.check_rate_limit defaultSettings
      { connected := true,
        store := [("email_rate:hourly:H", { value := "5", ttl := some 100 })] }
      "H").1 = false ∧
    (EmailService.process_message defaultSettings []
      { connected := true,
        store := [("email_rate:hourly:H", { value := "5", ttl := some 100 })] }
      (fun _ => "H") (fun bs => some bs) "ts"
      { senderEmail := some "user@gmail.com", subject := "s",
        parts := [] }).1.markedRead = false := by
  decide

/-! ## Claim C5 -/

/-- C5 (corrected): once the stored hourly count has reached the ceiling,
every further admission check for that sender is denied, and each denied
message makes the fetch loop attempt one limit notification (through
`EmailService.send_limit_notification`, which has no dedup — see the
counterexample for two notifications in one window); the
once-per-sender-per-type-per-hour dedup exists only in
`NotificationService.send_rate_limit_notification`, which the fetch loop
does not call: there, a second call after a successful send performs no
SMTP send while its cache marker (TTL 3600) is present. -/
theorem C5_rate_denial_and_notifications (cfg : Settings)
    (dbRules : List (String × Bool)) (r : Redis) (hashEmail : String → String)
    (fsWrite : List Nat → Option (List Nat)) (timestamp : String)
    (msg : EmailService.FetchedMsg) (sender s : String) (n : Nat)
    (hs : msg.senderEmail = some sender)
    (hsys : EmailService.isSystemSender cfg sender = false)
    (hdom : EmailService.check_domain_allowed cfg dbRules sender = true)
    (hget : RedisService.get r
      ("email_rate:hourly:" ++ hashEmail sender) = some s)
    (hsne : ¬ s = "") (hparse : pyInt? s = some n)
    (hn : cfg.hourlyLimit ≤ n) :
    (EmailService.check_rate_limit cfg r (hashEmail sender)).1 = false ∧
    (EmailService.process_message cfg dbRules r hashEmail fsWrite timestamp
        msg).1.limitNotificationAttempted = true ∧
    (EmailService.process_message cfg dbRules r hashEmail fsWrite timestamp
        msg).2 = r ∧
    (∀ (r2 : Redis) (smtpOk2 : Bool) (toEmail limitType : String),
      r2.connected = true →
      (NotificationService.send_rate_limit_notification
        (NotificationService.send_rate_limit_notification r2 true toEmail
          limitType).2.1 smtpOk2 toEmail limitType).2.2 = false) := by
  have hdeny : (EmailService.check_rate_limit cfg r (hashEmail sender)).1 =
      false := by
    rw [EmailService.check_rate_limit]
    rw [hget]
    cases hdaily : EmailService.pyIntOrZero
        (RedisService.get r ("email_rate:daily:" ++ hashEmail sender)) with
    | none => simp [EmailService.pyIntOrZero, hsne, hparse]
    | some d => simp [EmailService.pyIntOrZero, hsne, hparse, hn]
  refine ⟨hdeny, ?_, ?_, ?_⟩
  · simp [EmailService.process_message, hs, hsys, hdom, hdeny]
  · simp [EmailService.process_message, hs, hsys, hdom, hdeny]
  · intro r2 smtpOk2 toEmail limitType hc2
    by_cases hmark : (RedisService.get r2
        ("rate_limit_notification:" ++ toEmail ++ ":" ++ limitType)).isSome
    · simp [NotificationService.send_rate_limit_notification, hmark]
    · simp only [NotificationService.send_rate_limit_notification, hmark,
        if_true, if_false]
      have hself := lookup_setVal_self r2
        ("rate_limit_notification:" ++ toEmail ++ ":" ++ limitType)
        { value := "sent", ttl := some 3600 }
      simp [RedisService.get, connected_setVal, hc2, hmark, hself]

/-- Witness for C5 at a sender whose hourly count equals the default
ceiling of 5. -/
theorem C5_rate_denial_and_notifications_witness :
    (EmailService.check_rate_limit defaultSettings
      { connected := true,
        store := [("email_rate:hourly:H", { value := "5", ttl := some 100 })] }
      "H").1 = false ∧
    (EmailService.process_message defaultSettings []
      { connected := true,
        store := [("email_rate:hourly:H", { value := "5", ttl := some 100 })] }
      (fun _ => "H") (fun bs => some bs) "ts"
      { senderEmail := some "user@gmail.com", subject := "s",
        parts := [] }).1.limitNotificationAttempted = true ∧
    (EmailService.process_message defaultSettings []
      { connected := true,
        store := [("email_rate:hourly:H", { value := "5", ttl := some 100 })] }
      (fun _ => "H") (fun bs => some bs) "ts"
      { senderEmail := some "user@gmail.com", subject := "s",
        parts := [] }).2 =
      { connected := true,
        store := [("email_rate:hourly:H",
          { value := "5", ttl := some 100 })] } ∧
    (∀ (r2 : Redis) (smtpOk2 : Bool) (toEmail limitType : String),
      r2.connected = true →
      (NotificationService.send_rate_limit_notification
        (NotificationService.send_rate_limit_notification r2 true toEmail
          limitType).2.1 smtpOk2 toEmail limitType).2.2 = false) :=
  C5_rate_denial_and_notifications defaultSettings []
    { connected := true,
      store := [("email_rate:hourly:H", { value := "5", ttl := some 100 })] }
    (fun _ => "H") (fun bs => some bs) "ts"
    { senderEmail := some "user@gmail.com", subject := "s", parts := [] }
    "user@gmail.com" "5" 5 rfl (by decide) (by decide) (by decide)
    (by decide) (by decide) (by decide)

/-- C5 counterexample to the claim as stated: two messages from the same
at-ceiling sender in the same window make the fetch loop attempt TWO
limit notifications — not at most one per sender per limit type per
hour. -/
theorem C5_two_notifications_counterexample :
    (EmailService.process_messages defaultSettings [] (fun _ => "H")
      (fun bs => some bs) "ts"
      [{ senderEmail := some "user@gmail.com", subject := "s", parts := [] },
       { senderEmail := some "user@gmail.com", subject := "s", parts := [] }]
      { connected := true,
        store := [("email_rate:hourly:H",
          { value := "5", ttl := some 100 })] }).1 = 2 ∧
    ¬ ((2 : Nat) ≤ 1) := by
  decide

/-! ## Claim C10 -/

theorem collect_attachments_nothing (cfg : Settings)
    (fsWrite : List Nat → Option (List Nat)) (timestamp emailHash8 : String)
    (parts : List EmailService.AttachmentPart) (count : Nat)
    (h : ∀ p ∈ parts, EmailService.partYieldsNothing cfg p) :
    EmailService.collect_attachments cfg fsWrite timestamp emailHash8 parts
      count = some [] := by
  induction parts generalizing count with
  | nil => rfl
  | cons p rest ih =>
    have hp := h p (List.mem_cons_self p rest)
    have hrest := fun q hq => h q (List.mem_cons_of_mem p hq)
    rw [EmailService.collect_attachments]
    by_cases hd : p.isAttachmentDisposition = true
    · rw [if_pos hd]
      by_cases hc : cfg.maxAttachmentCount < count + 1
      · rw [if_pos hc]
      · rw [if_neg hc]
        cases hfn : p.filename with
        | none => exact ih _ hrest
        | some fn =>
          cases hpay : p.payload with
          | none => exact ih _ hrest
          | some data =>
            have hv : (EmailService.validate_attachment cfg fn
                data.length).1 = false := by
              rcases hp with hp | hp | hp | hp
              · exact absurd hd (by simp [hp])
              · exact absurd hfn (by simp [hp])
              · exact absurd hpay (by simp [hp])
              · exact hp fn data hfn hpay
            simp only [hv]
            rw [if_pos (by simp)]
            exact ih _ hrest
    · rw [if_neg hd]
      exact ih _ hrest

/-- C10 (confirmed): a message that passes the system-sender, domain and
rate checks but whose parts yield no stored attachment (no
attachment-disposition part, or no filename, or no decodable payload, or
validation fails for every candidate) produces zero records, performs no
rate-counter increment, attempts no notification, and is still marked
read (marking is gated on the mark-as-read setting, which defaults to
enabled). -/
theorem C10_no_attachments_no_record (cfg : Settings)
    (dbRules : List (String × Bool)) (r : Redis) (hashEmail : String → String)
    (fsWrite : List Nat → Option (List Nat)) (timestamp : String)
    (msg : EmailService.FetchedMsg) (sender : String)
    (hs : msg.senderEmail = some sender)
    (hsys : EmailService.isSystemSender cfg sender = false)
    (hdom : EmailService.check_domain_allowed cfg dbRules sender = true)
    (hrate : (EmailService.check_rate_limit cfg r (hashEmail sender)).1 = true)
    (hmark : cfg.markAsRead = true)
    (hparts : ∀ p ∈ msg.parts, EmailService.partYieldsNothing cfg p) :
    EmailService.process_message cfg dbRules r hashEmail fsWrite timestamp
      msg =
      ({ markedRead := true, savedAttachments := 0, rateIncremented := false,
         limitNotificationAttempted := false, recordProduced := false },
       r) := by
  have hcoll := collect_attachments_nothing cfg fsWrite timestamp
    (String.mk ((hashEmail sender).toList.take 8)) msg.parts 0 hparts
  simp only [String.toList] at hcoll
  simp [EmailService.process_message, hs, hsys, hdom, hrate, hcoll, hmark]

/-- Witness for C10: a message with zero parts from an admitted sender
under the default settings. -/
theorem C10_no_attachments_no_record_witness :
    EmailService.process_message defaultSettings []
      { connected := true, store := [] } (fun _ => "H") (fun bs => some bs)
      "ts" { senderEmail := some "user@gmail.com", subject := "s",
             parts := [] } =
      ({ markedRead := true, savedAttachments := 0, rateIncremented := false,
         limitNotificationAttempted := false, recordProduced := false },
       { connected := true, store := [] }) :=
  C10_no_attachments_no_record defaultSettings []
    { connected := true, store := [] } (fun _ => "H") (fun bs => some bs) "ts"
    { senderEmail := some "user@gmail.com", subject := "s", parts := [] }
    "user@gmail.com" rfl (by decide) (by decide) (by decide) rfl
    (by intro p hp; simp at hp)

/-! ## Claim C9 -/

/-- C9 (confirmed): a cycle whose fetch+process phase hits the 30-second
timeout is abandoned with zero UploadRecords created, the error counter
incremented by exactly one and the last-check time still stamped; and no
cycle outcome — timeout, success or a save failure — stops the loop from
proceeding to the next scheduled cycle. -/
theorem C9_cycle_timeout_isolated (st : EmailTaskManager.TaskStats) :
    EmailTaskManager.email_check_cycle st .fetchTimeout =
      ({ st with errorsCount := st.errorsCount + 1, lastCheckSet := true },
       0, true) ∧
    (∀ ev, (EmailTaskManager.email_check_cycle st ev).2.2 = true) ∧
    (∀ ev, (EmailTaskManager.email_check_cycle st ev).2.1 = 0 ∨
      ∃ recs, ev = EmailTaskManager.CycleEvent.fetched recs ∧
        (EmailTaskManager.email_check_cycle st ev).2.1 = recs.sum) := by
  refine ⟨rfl, ?_, ?_⟩
  · intro ev
    cases ev with
    | fetchTimeout => rfl
    | fetched recs =>
      by_cases h : recs.isEmpty <;>
        simp [EmailTaskManager.email_check_cycle, h]
    | fetchedSaveFailed recs => rfl
  · intro ev
    cases ev with
    | fetchTimeout => exact Or.inl rfl
    | fetched recs =>
      by_cases h : recs.isEmpty
      · exact Or.inl (by simp [EmailTaskManager.email_check_cycle, h])
      · exact Or.inr ⟨recs, rfl,
          by simp [EmailTaskManager.email_check_cycle, h]⟩
    | fetchedSaveFailed recs => exact Or.inl rfl

end KB
